import Mathlib

/-
  Verification development for the pokerdood logging subsystem.

  Shallow embedding of:
  - src/common/serviceLocator.ts  (token registry: registerService,
    resolveService, tryResolveService)
  - the logger module (dumpArray, MessagePrefixBuilder, buildFormatMessage,
    getLevelString, LoggerService, ModuleLogger, LoggerConfigGuard,
    disableLogger, disableLoggerBut, registerLogger)

  Conventions of the embedding:
  - JavaScript values that matter to control flow are modelled by JSValue
    with an explicit truthiness test; optional strings and numbers in
    metadata are Option values, with the JS falsiness of the empty string
    and of the number 0 made explicit where the source tests them.
  - Mutable heap objects (LoggerService instances, handle objects) live in
    a system state Sys; object references are indices into its lists.
  - Code that throws is embedded as an Except value; an error result means
    the exception propagates and no state change took place (the source
    throws before any mutation in every such path).
  - The emit callback (logMethod) is modelled by appending a LogEvent to a
    trace, tagged with the index of the service that emitted it.
-/

set_option autoImplicit false

namespace Pokerdood

/-! ## JavaScript values and truthiness -/

/-- A JavaScript runtime value, restricted to the shapes the service
locator can store and test.  Object identity is an index into a heap. -/
inductive JSValue where
  | undefined
  | null
  | boolean (b : Bool)
  | num (n : Int)
  | str (s : String)
  | obj (id : Nat)
deriving DecidableEq, Repr

/-- JavaScript truthiness: null, undefined, false, 0 and the empty string
are falsy; every object is truthy. -/
def JSValue.truthy : JSValue → Bool
  | .undefined => false
  | .null => false
  | .boolean b => b
  | .num n => n != 0
  | .str s => s != ""
  | .obj _ => true

/-! ## Token registry (src/common/serviceLocator.ts)

Tokens are compared by identity (the source uses a Map keyed by the token
object), so a token is modelled by a Nat identity.  A token argument that
may be null or undefined is an Option Nat. -/

/-- The registry Map, as an association list with Map.set semantics. -/
abbrev Registry := List (Nat × JSValue)

/-- Map.set: overwrite the entry for the key if present, else append. -/
def Registry.setVal : Registry → Nat → JSValue → Registry
  | [], t, v => [(t, v)]
  | (k, w) :: rest, t, v =>
    if k = t then (k, v) :: rest else (k, w) :: Registry.setVal rest t v

/-- Map.get as an Option (none when the key was never registered). -/
def Registry.lookup : Registry → Nat → Option JSValue
  | [], _ => none
  | (k, w) :: rest, t => if k = t then some w else Registry.lookup rest t

/-- The two exceptions the service locator can throw. -/
inductive LocError where
  | invalidToken
  | serviceNotFound
deriving DecidableEq, Repr

/-- registerService: throws on a null/undefined token (before touching the
map, so the registry is unchanged in that case); otherwise stores the
value, overwriting any prior value for the token. -/
def registerService (reg : Registry) (token : Option Nat) (v : JSValue) :
    Except LocError Registry :=
  match token with
  | none => .error .invalidToken
  | some t => .ok (reg.setVal t v)

/-- tryResolveService: returns map.get(token), which is undefined when the
token was never registered. -/
def tryResolveService (reg : Registry) (t : Nat) : JSValue :=
  (reg.lookup t).getD .undefined

/-- resolveService: calls tryResolveService and throws ServiceNotFound when
the result is falsy. -/
def resolveService (reg : Registry) (t : Nat) : Except LocError JSValue :=
  let v := tryResolveService reg t
  if v.truthy then .ok v else .error .serviceNotFound

/-! ## dumpArray (src/common/logger.ts)

dumpArray makes a sequence of logger.debug calls; the embedding returns the
list of argument strings of those calls, in order.  The JS expression
four-spaces + val coerces the element to a string, modelled by an explicit
rendering function. -/

/-- dumpArray: debug the message; when the array is null/undefined or
empty, debug the NULL or EMPTY marker and stop; otherwise debug each
element prefixed with four spaces. -/
def dumpArray {α : Type} (render : α → String) (message : String)
    (arr : Option (List α)) : List String :=
  let first := [message]
  match arr with
  | none => first ++ ["NULL or EMPTY"]
  | some l =>
    if l.length = 0 then first ++ ["NULL or EMPTY"]
    else first ++ l.map (fun v => "    " ++ render v)

/-! ## Logger options and metadata (the logger module) -/

/-- LoggerOptions: enabled and disabled module lists and the verbose flag.
A field holding none stands for a field that is null, undefined or absent
from the options object; when such an object is used as the overrides of a
spread merge, none means the field is absent from the literal. -/
structure LoggerOptions where
  enabled : Option (List String)
  disabled : Option (List String)
  verbose : Option Bool
deriving DecidableEq, Repr

/-- The options installed by the LoggerService constructor:
verbose true, disabled null, enabled null. -/
def initialOptions : LoggerOptions :=
  { enabled := none, disabled := none, verbose := some true }

/-- MessageMetadata: the meta object passed to log and to the sink. -/
structure MessageMetadata where
  appName : Option String
  pid : Option Nat
  moduleName : Option String
  contextName : Option String
  contextId : Option Nat
deriving DecidableEq, Repr

/-- JS truthiness of an optional string field: undefined and the empty
string are falsy. -/
def strTruthy : Option String → Bool
  | some s => s != ""
  | none => false

/-! ## LoggerService

The mutable state of a LoggerService instance.  The emit callback
(logMethod) fixed at construction is not part of the state; LoggerService.log
returns the triple it passes to that callback, or none when the message is
dropped by filtering. -/

structure LoggerService where
  appName : Option String
  options : LoggerOptions
  disabledModules : List String
deriving DecidableEq, Repr

/-- The LoggerService constructor state for a given appName. -/
def LoggerService.create (appName : Option String) : LoggerService :=
  { appName := appName, options := initialOptions, disabledModules := [] }

/-- LoggerService.log: when meta.moduleName is truthy, apply filtering —
a non-null disabled list drops the message iff it contains the module name
(and the enabled list is then never consulted, because the source guards
the enabled check with not-disabled); only when the disabled list is null
does a non-null enabled list drop every module name it does not contain.
Surviving messages get appName (when truthy) and pid stamped into the
metadata and are handed to the emit callback; the returned value is the
argument triple of that call, or none when the message was dropped. -/
def LoggerService.log (pid : Nat) (s : LoggerService) (level message : String)
    (meta : MessageMetadata) : Option (String × String × MessageMetadata) :=
  let drop : Bool :=
    match meta.moduleName with
    | none => false
    | some m =>
      if m = "" then false
      else
        match s.options.disabled with
        | some dl => dl.contains m
        | none =>
          match s.options.enabled with
          | some el => !(el.contains m)
          | none => false
  if drop then none
  else
    let meta1 := if strTruthy s.appName then { meta with appName := s.appName } else meta
    let meta2 := { meta1 with pid := some pid }
    some (level, message, meta2)

/-- LoggerService.configure: replace the whole options object. -/
def LoggerService.configure (s : LoggerService) (options : LoggerOptions) :
    LoggerService :=
  { s with options := options }

/-- Set.add: append the name only when it is not already present. -/
def setAdd (l : List String) (n : String) : List String :=
  if l.contains n then l else l ++ [n]

/-- LoggerService.disable: add each name to the auxiliary disabledModules
set. -/
def LoggerService.disable (s : LoggerService) (moduleNames : List String) :
    LoggerService :=
  { s with disabledModules := moduleNames.foldl setAdd s.disabledModules }

/-- LoggerService.isDisabled: membership in the auxiliary disabledModules
set. -/
def LoggerService.isDisabled (s : LoggerService) (moduleName : String) : Bool :=
  s.disabledModules.contains moduleName

/-! ## Message formatting -/

/-- getLevelString: upper-case the level. -/
def getLevelString (level : String) : String := level.toUpper

/-- MessagePrefixBuilder: accumulates colon-separated parts (field name
pfx because the source field name is a Lean keyword). -/
structure MessagePrefixBuilder where
  pfx : String
deriving DecidableEq, Repr

/-- append: skip a falsy part; otherwise emit a colon separator when the
accumulator is non-empty, then the part. -/
def MessagePrefixBuilder.append (b : MessagePrefixBuilder) (str : String) :
    MessagePrefixBuilder :=
  if str = "" then b
  else if b.pfx = "" then ⟨str⟩
  else ⟨b.pfx ++ ":" ++ str⟩

/-- done: read the accumulated string. -/
def MessagePrefixBuilder.done (b : MessagePrefixBuilder) : String := b.pfx

/-- The string a metadata string field contributes to append: undefined is
falsy and is skipped by append exactly as the empty string is. -/
def strPart : Option String → String
  | some s => s
  | none => ""

/-- The string a metadata number field contributes to append: undefined and
the number 0 are falsy and are skipped by append exactly as the empty
string is; a non-zero number is coerced to its decimal rendering. -/
def natPart : Option Nat → String
  | some n => if n = 0 then "" else toString n
  | none => ""

/-- buildFormatMessage: the timestamp comes from the wall clock (moment),
taken here as the parameter now; the rest is the source template literal
over the upper-cased level, the built prefix and the message. -/
def buildFormatMessage (now : String) (level : String) (message : String)
    (meta : MessageMetadata) : String :=
  let pfx :=
    (((((MessagePrefixBuilder.mk "").append (strPart meta.appName)).append
      (natPart meta.pid)).append (strPart meta.contextName)).append
      (natPart meta.contextId)).append (strPart meta.moduleName) |>.done
  now ++ " " ++ getLevelString level ++ " " ++ pfx ++ " " ++ message

/-! ## System state: services, handles, the two logger registry slots

Within the logger module the registry is only ever used at the two tokens
LOGGER_HANDLE and LOGGER, so its projection to this subsystem is a pair of
optional references.  LoggerService instances and handle objects are
mutable heap objects: they live in lists indexed by object identity.  A
handle object is exactly its mutable logger field, so the handle heap is a
list of service indices. -/

/-- A log event: the emit callback of service svc was invoked with the
level, formatted message and stamped metadata. -/
structure LogEvent where
  svc : Nat
  level : String
  message : String
  meta : MessageMetadata
deriving DecidableEq, Repr

/-- The process-wide state of the logger subsystem. -/
structure Sys where
  services : List LoggerService
  handles : List Nat
  regHandle : Option Nat
  regLogger : Option Nat
  trace : List LogEvent
deriving DecidableEq, Repr

/-- Read a service object by identity (total; out-of-range identities do
not occur in reachable states). -/
def Sys.svc (sys : Sys) (sid : Nat) : LoggerService :=
  sys.services.getD sid (LoggerService.create none)

/-- Write back a mutated service object. -/
def Sys.setSvc (sys : Sys) (sid : Nat) (s : LoggerService) : Sys :=
  { sys with services := sys.services.set sid s }

/-- configure on the service object sid. -/
def Sys.configure (sys : Sys) (sid : Nat) (options : LoggerOptions) : Sys :=
  sys.setSvc sid ((sys.svc sid).configure options)

/-- disable on the service object sid. -/
def Sys.disable (sys : Sys) (sid : Nat) (moduleNames : List String) : Sys :=
  sys.setSvc sid ((sys.svc sid).disable moduleNames)

/-- What a ModuleLogger can hold as its handle: the shared handle object
registered under LOGGER_HANDLE, or the ephemeral wrapper object the
backward-compatibility path builds around a directly registered service
(that wrapper is never reachable from the registry, so registerLogger can
never mutate it). -/
inductive HandleRef where
  | reg (hid : Nat)
  | eph (sid : Nat)
deriving DecidableEq, Repr

/-- Dereference handle.logger: the service identity a handle currently
designates. -/
def Sys.handleService (sys : Sys) : HandleRef → Nat
  | .reg hid => sys.handles.getD hid 0
  | .eph sid => sid

/-- registerLogger: when no handle object is registered yet, allocate a
fresh handle wrapping the service and register it under LOGGER_HANDLE;
otherwise mutate the existing handle object in place.  In both cases also
register the service directly under the legacy LOGGER token. -/
def registerLogger (sys : Sys) (sid : Nat) : Sys :=
  match sys.regHandle with
  | none =>
    { sys with
      handles := sys.handles ++ [sid]
      regHandle := some sys.handles.length
      regLogger := some sid }
  | some hid =>
    { sys with
      handles := sys.handles.set hid sid
      regLogger := some sid }

/-! ## ModuleLogger -/

/-- The mutable state of a ModuleLogger instance. -/
structure ModuleLoggerState where
  name : String
  handle : Option HandleRef
  disabled : Bool
deriving DecidableEq, Repr

/-- createLogger: a fresh ModuleLogger with no handle, not disabled. -/
def createLogger (name : String) : ModuleLoggerState :=
  { name := name, handle := none, disabled := false }

/-- attachToLoggerService: when no handle is held yet, resolve the
registered handle object; failing that, fall back to the legacy directly
registered service and synthesize an ephemeral wrapper; if neither exists,
mark the logger disabled (the handle field stays unset).  When a handle is
found, consult isDisabled on its current service: a positive answer also
marks the logger disabled — the flag is only ever set, never cleared. -/
def ModuleLogger.attachToLoggerService (sys : Sys) (ml : ModuleLoggerState) :
    ModuleLoggerState :=
  if ml.handle.isSome then ml
  else
    match sys.regHandle with
    | some hid =>
      { ml with
        handle := some (.reg hid)
        disabled := ml.disabled || (sys.svc (sys.handles.getD hid 0)).isDisabled ml.name }
    | none =>
      match sys.regLogger with
      | none => { ml with disabled := true }
      | some sid =>
        { ml with
          handle := some (.eph sid)
          disabled := ml.disabled || (sys.svc sid).isDisabled ml.name }

/-- The service identity whose log method a debug/warn/error call on ml
invokes in state sys, after the lazy binding step; none when the call
returns without invoking any service (logger disabled, or unbound because
no backend exists). -/
def ModuleLogger.logTarget (sys : Sys) (ml : ModuleLoggerState) : Option Nat :=
  let ml1 := ModuleLogger.attachToLoggerService sys ml
  if ml1.disabled then none
  else
    match ml1.handle with
    | none => none
    | some h => some (sys.handleService h)

/-- ModuleLogger.log: ensure bound, return early when disabled, otherwise
invoke log on the handle target with metadata carrying only the module
name; the variadic arguments are already joined into one message string by
util.format, an external collaborator.  An emitted message is appended to
the trace tagged with the emitting service.  (The none-handle fallthrough
below is unreachable: after binding, an unset handle implies disabled.) -/
def ModuleLogger.log (pid : Nat) (sys : Sys) (ml : ModuleLoggerState)
    (level message : String) : Sys × ModuleLoggerState :=
  let ml1 := ModuleLogger.attachToLoggerService sys ml
  if ml1.disabled then (sys, ml1)
  else
    match ml1.handle with
    | none => (sys, ml1)
    | some h =>
      let sid := sys.handleService h
      let meta : MessageMetadata :=
        { appName := none, pid := none, moduleName := some ml1.name
          contextName := none, contextId := none }
      match LoggerService.log pid (sys.svc sid) level message meta with
      | none => (sys, ml1)
      | some (lv, msg, meta2) =>
        ({ sys with trace := sys.trace ++ [⟨sid, lv, msg, meta2⟩] }, ml1)

/-- debug delegates to log with level debug. -/
def ModuleLogger.debug (pid : Nat) (sys : Sys) (ml : ModuleLoggerState)
    (message : String) : Sys × ModuleLoggerState :=
  ModuleLogger.log pid sys ml "debug" message

/-- warn delegates to log with level warn. -/
def ModuleLogger.warn (pid : Nat) (sys : Sys) (ml : ModuleLoggerState)
    (message : String) : Sys × ModuleLoggerState :=
  ModuleLogger.log pid sys ml "warn" message

/-- error delegates to log with level error. -/
def ModuleLogger.error (pid : Nat) (sys : Sys) (ml : ModuleLoggerState)
    (message : String) : Sys × ModuleLoggerState :=
  ModuleLogger.log pid sys ml "error" message

/-! ## LoggerConfigGuard -/

/-- The spread merge of an overrides literal over the saved options: a
field present in the overrides replaces the saved field wholesale, a field
absent from the overrides keeps the saved value. -/
def mergeOptions (saved overrides : LoggerOptions) : LoggerOptions :=
  { enabled :=
      match overrides.enabled with
      | some v => some v
      | none => saved.enabled
    disabled :=
      match overrides.disabled with
      | some v => some v
      | none => saved.disabled
    verbose :=
      match overrides.verbose with
      | some v => some v
      | none => saved.verbose }

/-- The state a constructed guard retains: the captured service reference
and the options object saved before the override was applied. -/
structure LoggerConfigGuard where
  sid : Nat
  originalOptions : LoggerOptions
deriving DecidableEq, Repr

/-- The LoggerConfigGuard constructor: resolveService(LOGGER) — which
throws ServiceNotFound when no backend is registered, since a registered
service object is always truthy — then save the current options and
configure the spread merge of the overrides over them.  The error result
models the exception propagating out of the constructor, with no state
change and no guard produced. -/
def newLoggerConfigGuard (sys : Sys) (options : LoggerOptions) :
    Except LocError (Sys × LoggerConfigGuard) :=
  match sys.regLogger with
  | none => .error .serviceNotFound
  | some sid =>
    let saved := (sys.svc sid).options
    .ok (sys.configure sid (mergeOptions saved options), ⟨sid, saved⟩)

/-- dispose: configure the captured service back to the saved options
object. -/
def LoggerConfigGuard.dispose (g : LoggerConfigGuard) (sys : Sys) : Sys :=
  sys.configure g.sid g.originalOptions

/-- disableLogger: a guard whose overrides literal has only the disabled
field. -/
def disableLogger (sys : Sys) (name : String) :
    Except LocError (Sys × LoggerConfigGuard) :=
  newLoggerConfigGuard sys { enabled := none, disabled := some [name], verbose := none }

/-- disableLoggerBut: a guard whose overrides literal has only the enabled
field. -/
def disableLoggerBut (sys : Sys) (names : List String) :
    Except LocError (Sys × LoggerConfigGuard) :=
  newLoggerConfigGuard sys { enabled := some names, disabled := none, verbose := none }

/-! ## Specification-worded filtering (for comparison with the source)

claimFilterEmits is deliberately NOT translated from the source: it
follows the words of the specification sentence for C3 — drop when the
disabled list is non-null and contains the module name, else drop when
the enabled list is non-null and does not contain it, else emit — so that
it can be compared against the behaviour of LoggerService.log. -/

/-- The C3 filtering rule as the specification words it (else-if chain on
the two lists). -/
def claimFilterEmits (opts : LoggerOptions) (m : String) : Bool :=
  if (match opts.disabled with
      | some dl => dl.contains m
      | none => false) then false
  else if (match opts.enabled with
      | some el => !(el.contains m)
      | none => false) then false
  else true

/-! ## Colon joining (for the C8 layout statement) -/

/-- Join a list of strings with single colon separators. -/
def colonJoin : List String → String
  | [] => ""
  | [s] => s
  | s :: t :: rest => s ++ ":" ++ colonJoin (t :: rest)

/-- Binary colon join that treats the empty string as a neutral element;
the intermediate abstraction used to reason about MessagePrefixBuilder. -/
def join2 (a b : String) : String :=
  if a = "" then b else if b = "" then a else a ++ ":" ++ b

/-! ## Registry lemmas -/

theorem Registry.lookup_setVal_self (reg : Registry) (t : Nat) (v : JSValue) :
    (reg.setVal t v).lookup t = some v := by
  induction reg with
  | nil => simp [Registry.setVal, Registry.lookup]
  | cons kv rest ih =>
    obtain ⟨k, w⟩ := kv
    by_cases hk : k = t <;> simp [Registry.setVal, Registry.lookup, hk, ih]

theorem Registry.lookup_setVal_ne (reg : Registry) (t t' : Nat) (v : JSValue)
    (h : t' ≠ t) : (reg.setVal t v).lookup t' = reg.lookup t' := by
  induction reg with
  | nil => simp [Registry.setVal, Registry.lookup, h, Ne.symm h]
  | cons kv rest ih =>
    obtain ⟨k, w⟩ := kv
    by_cases hk : k = t
    · subst hk
      simp [Registry.setVal, Registry.lookup, Ne.symm h]
    · by_cases hk' : k = t'
      · subst hk'
        simp [Registry.setVal, Registry.lookup, hk, h, Ne.symm h]
      · simp [Registry.setVal, Registry.lookup, hk, hk', ih]

/-! ## Heap access lemmas -/

theorem getD_set_self {α : Type} (l : List α) (i : Nat) (a d : α)
    (h : i < l.length) : (l.set i a).getD i d = a := by
  rw [List.getD_eq_getElem?_getD, List.getElem?_set_eq_of_lt a h]
  rfl

theorem getD_set_ne {α : Type} (l : List α) (i j : Nat) (a d : α)
    (h : i ≠ j) : (l.set i a).getD j d = l.getD j d := by
  rw [List.getD_eq_getElem?_getD, List.getElem?_set_ne h,
    List.getD_eq_getElem?_getD]

theorem svc_setSvc_self (sys : Sys) (sid : Nat) (s : LoggerService)
    (h : sid < sys.services.length) : (sys.setSvc sid s).svc sid = s := by
  simp only [Sys.setSvc, Sys.svc]
  exact getD_set_self _ _ _ _ h

theorem svc_setSvc_ne (sys : Sys) (sid sid' : Nat) (s : LoggerService)
    (h : sid ≠ sid') : (sys.setSvc sid s).svc sid' = sys.svc sid' := by
  simp only [Sys.setSvc, Sys.svc]
  exact getD_set_ne _ _ _ _ _ h

theorem setAdd_contains_self (l : List String) (n : String) :
    (setAdd l n).contains n = true := by
  unfold setAdd
  by_cases h : l.contains n <;> simp_all

/-! ## Claim theorems -/

/-- C7: registerService with a null or undefined token raises the invalid
token error (and, throwing before any mutation, leaves the registry
unchanged); with a real token it stores the value, overwriting any prior
value for that token and leaving other tokens untouched; resolveService on
a token with no registered value raises the not-found error; and
tryResolveService on such a token returns the nullish absent value without
raising. -/
theorem c7_service_locator_contract (reg : Registry) (t : Nat) (v : JSValue) :
    (∀ w, registerService reg none w = .error .invalidToken) ∧
    (registerService reg (some t) v = .ok (reg.setVal t v) ∧
      (reg.setVal t v).lookup t = some v ∧
      ∀ t', t' ≠ t → (reg.setVal t v).lookup t' = reg.lookup t') ∧
    (reg.lookup t = none →
      resolveService reg t = .error .serviceNotFound ∧
      tryResolveService reg t = .undefined) := by
  refine ⟨fun w => rfl,
    ⟨rfl, Registry.lookup_setVal_self reg t v,
      fun t' h => Registry.lookup_setVal_ne reg t t' v h⟩, ?_⟩
  intro h
  constructor
  · simp [resolveService, tryResolveService, h, JSValue.truthy]
  · simp [tryResolveService, h]

/-- Witness for C7 at a concrete registry, token and value. -/
theorem c7_service_locator_contract_witness :
    registerService [] none (.num 1) = .error .invalidToken ∧
    registerService [] (some 5) (.num 1) = .ok [(5, .num 1)] ∧
    (Registry.setVal [] 5 (.num 1)).lookup 5 = some (.num 1) ∧
    (Registry.setVal [] 5 (.num 1)).lookup 7 = Registry.lookup [] 7 ∧
    resolveService [] 5 = .error .serviceNotFound ∧
    tryResolveService [] 5 = .undefined := by
  have h := c7_service_locator_contract [] 5 (.num 1)
  exact ⟨h.1 (.num 1), h.2.1.1, h.2.1.2.1, h.2.1.2.2 7 (by decide),
    (h.2.2 rfl).1, (h.2.2 rfl).2⟩

/-- C9 counterexample: registering the falsy value 0 is distinguishable,
through tryResolveService, from the unregistered case — the call returns
the number 0 itself, while an unregistered token yields undefined, and the
two differ — so the returns-indistinguishably clause of the claim is false
as stated, even though resolveService does raise not-found on the
registered falsy value. -/
theorem c9_falsy_counterexample :
    tryResolveService (Registry.setVal [] 0 (.num 0)) 0 = .num 0 ∧
    tryResolveService [] 0 = .undefined ∧
    JSValue.num 0 ≠ JSValue.undefined ∧
    resolveService (Registry.setVal [] 0 (.num 0)) 0 =
      .error .serviceNotFound :=
  ⟨rfl, rfl, by decide, rfl⟩

/-- C9 amended: for a token registered with a falsy value, resolveService
raises the not-found error even though a value was registered, and
tryResolveService returns that falsy value without raising — a value
falsy like the undefined of the unregistered case, so truthiness tests
cannot tell the two apart (though the value itself may differ from
undefined); and a registered value is resolvable via resolveService if
and only if it is truthy. -/
theorem c9_falsy_registered (reg : Registry) (t : Nat) (v : JSValue)
    (hv : v.truthy = false) :
    resolveService (reg.setVal t v) t = .error .serviceNotFound ∧
    tryResolveService (reg.setVal t v) t = v ∧
    (tryResolveService (reg.setVal t v) t).truthy =
      (tryResolveService [] t).truthy ∧
    (∀ w : JSValue, resolveService (reg.setVal t w) t = .ok w ↔
      w.truthy = true) := by
  have hl : ∀ w : JSValue, tryResolveService (reg.setVal t w) t = w := by
    intro w
    simp [tryResolveService, Registry.lookup_setVal_self reg t w]
  refine ⟨?_, hl v, ?_, ?_⟩
  · simp [resolveService, hl v, hv]
  · rw [hl v, hv]
    rfl
  · intro w
    constructor
    · intro h
      by_contra hw
      simp [resolveService, hl w, Bool.eq_false_iff.mpr hw] at h
    · intro h
      simp [resolveService, hl w, h]

/-- Witness for C9 amended at the concrete falsy value 0 and the concrete
truthy value true. -/
theorem c9_falsy_registered_witness :
    resolveService (Registry.setVal [] 3 (.num 0)) 3 =
      .error .serviceNotFound ∧
    tryResolveService (Registry.setVal [] 3 (.num 0)) 3 = .num 0 ∧
    (tryResolveService (Registry.setVal [] 3 (.num 0)) 3).truthy =
      (tryResolveService [] 3).truthy ∧
    (resolveService (Registry.setVal [] 3 (.boolean true)) 3 =
      .ok (.boolean true) ↔ (JSValue.boolean true).truthy = true) := by
  have h := c9_falsy_registered [] 3 (.num 0) (by decide)
  exact ⟨h.1, h.2.1, h.2.2.1, h.2.2.2 (.boolean true)⟩

/-- C10: dumpArray first debugs the message; on a null, undefined or empty
array it then debugs the NULL or EMPTY marker, for exactly two debug calls
in total; on a non-empty array of length n it makes exactly n further
debug calls, one per element in order, each argument the rendering of the
element prefixed by four spaces. -/
theorem c10_dumpArray_calls {α : Type} (render : α → String)
    (message : String) :
    (dumpArray render message none = [message, "NULL or EMPTY"] ∧
      (dumpArray render message none).length = 2) ∧
    (dumpArray render message (some []) = [message, "NULL or EMPTY"] ∧
      (dumpArray render message (some [])).length = 2) ∧
    (∀ l : List α, l ≠ [] →
      dumpArray render message (some l) =
        message :: l.map (fun v => "    " ++ render v) ∧
      (dumpArray render message (some l)).length = l.length + 1) := by
  refine ⟨⟨rfl, rfl⟩, ⟨rfl, rfl⟩, ?_⟩
  intro l hl
  have hlen : l.length ≠ 0 := by simpa using hl
  constructor
  · simp [dumpArray, hlen]
  · simp [dumpArray, hlen]

/-- Witness for C10 at a concrete two-element array and the empty array. -/
theorem c10_dumpArray_calls_witness :
    dumpArray id "msg" (some ["a", "b"]) = ["msg", "    a", "    b"] ∧
    (dumpArray id "msg" (some ["a", "b"])).length = 2 + 1 ∧
    dumpArray id "msg" (some ([] : List String)) = ["msg", "NULL or EMPTY"] := by
  have h := c10_dumpArray_calls (id : String → String) "msg"
  have h2 := h.2.2 ["a", "b"] (by decide)
  refine ⟨?_, h2.2, h.2.1.1⟩
  rw [h2.1]
  rfl

/-- C4 is a code bug: the LoggerConfigGuard constructor uses the throwing
resolveService, so constructing a guard (directly or through disableLogger
or disableLoggerBut) while nothing is registered under the LOGGER token
propagates the not-found exception instead of silently producing an inert
guard; the dead truthiness checks on the resolved service in the
constructor and in dispose show the fail-silent behaviour was the intent.
This theorem evaluates the embedded code at the failing input. -/
theorem c4_guard_throws_without_backend :
    newLoggerConfigGuard ⟨[], [], none, none, []⟩
        { enabled := none, disabled := some ["x"], verbose := none } =
      .error .serviceNotFound ∧
    disableLogger ⟨[], [], none, none, []⟩ "x" = .error .serviceNotFound ∧
    disableLoggerBut ⟨[], [], none, none, []⟩ ["a", "b"] =
      .error .serviceNotFound := by
  exact ⟨rfl, rfl, rfl⟩

/-- C3 counterexample: with disabled = [a] and enabled = [b] both non-null
and module name c in neither list, the claimed else-if chain (worded by
claimFilterEmits) drops the message, but LoggerService.log emits it — the
source never consults the enabled list once the disabled list is non-null,
so the claim as stated is false at this input. -/
theorem c3_precedence_counterexample :
    (LoggerService.log 7
        { appName := none
          options := { enabled := some ["b"], disabled := some ["a"], verbose := some true }
          disabledModules := [] }
        "debug" "hello"
        { appName := none, pid := none, moduleName := some "c"
          contextName := none, contextId := none }).isSome = true ∧
    claimFilterEmits
      { enabled := some ["b"], disabled := some ["a"], verbose := some true }
      "c" = false :=
  ⟨rfl, rfl⟩

/-- C3 amended: for a log call whose metadata carries a truthy moduleName —
when the disabled list is non-null, the call emits nothing iff the disabled
list contains moduleName, and the enabled list is not consulted at all;
the enabled-list test (drop when moduleName is absent from it) applies
only when the disabled list is null; when both lists are null the message
is forwarded to the emit function. -/
theorem c3_filtering (pid : Nat) (s : LoggerService) (level message m : String)
    (meta : MessageMetadata) (hmeta : meta.moduleName = some m) (hm : m ≠ "") :
    (∀ dl, s.options.disabled = some dl → dl.contains m = true →
      LoggerService.log pid s level message meta = none) ∧
    (∀ dl, s.options.disabled = some dl → dl.contains m = false →
      (LoggerService.log pid s level message meta).isSome = true) ∧
    (∀ el, s.options.disabled = none → s.options.enabled = some el →
      el.contains m = false →
      LoggerService.log pid s level message meta = none) ∧
    (∀ el, s.options.disabled = none → s.options.enabled = some el →
      el.contains m = true →
      (LoggerService.log pid s level message meta).isSome = true) ∧
    (s.options.disabled = none → s.options.enabled = none →
      (LoggerService.log pid s level message meta).isSome = true) := by
  refine ⟨?_, ?_, ?_, ?_, ?_⟩
  · intro dl hd hc
    simp only [List.contains, List.elem_eq_mem, decide_eq_true_eq] at hc
    simp [LoggerService.log, hmeta, hm, hd, hc]
  · intro dl hd hc
    simp only [List.contains, List.elem_eq_mem, decide_eq_false_iff_not] at hc
    simp [LoggerService.log, hmeta, hm, hd, hc]
  · intro el hd he hc
    simp only [List.contains, List.elem_eq_mem, decide_eq_false_iff_not] at hc
    simp [LoggerService.log, hmeta, hm, hd, he, hc]
  · intro el hd he hc
    simp only [List.contains, List.elem_eq_mem, decide_eq_true_eq] at hc
    simp [LoggerService.log, hmeta, hm, hd, he, hc]
  · intro hd he
    simp [LoggerService.log, hmeta, hm, hd, he]

/-- Witness for C3 amended, exercising all five branches on concrete
services, module names and metadata. -/
theorem c3_filtering_witness :
    LoggerService.log 7
      ⟨none, ⟨some ["b"], some ["a"], some true⟩, []⟩ "debug" "x"
      ⟨none, none, some "a", none, none⟩ = none ∧
    (LoggerService.log 7
      ⟨none, ⟨some ["b"], some ["a"], some true⟩, []⟩ "debug" "x"
      ⟨none, none, some "c", none, none⟩).isSome = true ∧
    LoggerService.log 7
      ⟨none, ⟨some ["b"], none, some true⟩, []⟩ "debug" "x"
      ⟨none, none, some "c", none, none⟩ = none ∧
    (LoggerService.log 7
      ⟨none, ⟨some ["b"], none, some true⟩, []⟩ "debug" "x"
      ⟨none, none, some "b", none, none⟩).isSome = true ∧
    (LoggerService.log 7
      ⟨none, ⟨none, none, some true⟩, []⟩ "debug" "x"
      ⟨none, none, some "e", none, none⟩).isSome = true := by
  refine ⟨?_, ?_, ?_, ?_, ?_⟩
  · exact (c3_filtering 7 ⟨none, ⟨some ["b"], some ["a"], some true⟩, []⟩
      "debug" "x" "a" ⟨none, none, some "a", none, none⟩ rfl
      (by decide)).1 ["a"] rfl (by decide)
  · exact (c3_filtering 7 ⟨none, ⟨some ["b"], some ["a"], some true⟩, []⟩
      "debug" "x" "c" ⟨none, none, some "c", none, none⟩ rfl
      (by decide)).2.1 ["a"] rfl (by decide)
  · exact (c3_filtering 7 ⟨none, ⟨some ["b"], none, some true⟩, []⟩
      "debug" "x" "c" ⟨none, none, some "c", none, none⟩ rfl
      (by decide)).2.2.1 ["b"] rfl rfl (by decide)
  · exact (c3_filtering 7 ⟨none, ⟨some ["b"], none, some true⟩, []⟩
      "debug" "x" "b" ⟨none, none, some "b", none, none⟩ rfl
      (by decide)).2.2.2.1 ["b"] rfl rfl (by decide)
  · exact (c3_filtering 7 ⟨none, ⟨none, none, some true⟩, []⟩
      "debug" "x" "e" ⟨none, none, some "e", none, none⟩ rfl
      (by decide)).2.2.2.2 rfl rfl

/-! ## String joining lemmas for the C8 layout -/

theorem str_append_assoc (a b c : String) : a ++ b ++ c = a ++ (b ++ c) :=
  String.ext (by simp [String.data_append])

theorem str_append_ne_empty (a b : String) (hb : b ≠ "") : a ++ b ≠ "" := by
  intro hc
  apply hb
  have hd := congrArg String.data hc
  rw [String.data_append] at hd
  have hbd : b.data = [] := (List.append_eq_nil.mp hd).2
  exact String.ext (by rw [hbd])

theorem join2_empty_left (b : String) : join2 "" b = b := by
  simp [join2]

theorem join2_empty_right (a : String) : join2 a "" = a := by
  by_cases h : a = ""
  · rw [h]
    rfl
  · simp [join2, h]

theorem join2_of_ne (a b : String) (ha : a ≠ "") (hb : b ≠ "") :
    join2 a b = a ++ ":" ++ b := by
  simp [join2, ha, hb]

theorem join2_ne_empty (a b : String) (ha : a ≠ "") : join2 a b ≠ "" := by
  by_cases hb : b = ""
  · rw [hb, join2_empty_right]
    exact ha
  · rw [join2_of_ne a b ha hb]
    exact str_append_ne_empty _ _ hb

theorem join2_assoc (a s x : String) (hs : s ≠ "") :
    join2 (join2 a s) x = join2 a (join2 s x) := by
  by_cases ha : a = ""
  · rw [ha, join2_empty_left, join2_empty_left]
  · by_cases hx : x = ""
    · rw [hx, join2_empty_right, join2_empty_right]
    · rw [join2_of_ne a s ha hs, join2_of_ne s x hs hx]
      rw [join2_of_ne _ _ (str_append_ne_empty _ _ hs) hx]
      rw [join2_of_ne a _ ha (str_append_ne_empty _ _ hx)]
      simp only [str_append_assoc]

theorem colonJoin_ne_empty (l : List String) (hl : ∀ x ∈ l, x ≠ "")
    (hne : l ≠ []) : colonJoin l ≠ "" := by
  match l with
  | [] => exact absurd rfl hne
  | [s] => exact hl s (by simp)
  | s :: t :: rest =>
    show s ++ ":" ++ colonJoin (t :: rest) ≠ ""
    rw [str_append_assoc]
    exact str_append_ne_empty _ _ (str_append_ne_empty _ _
      (colonJoin_ne_empty (t :: rest) (fun x hx => hl x (by simp [hx])) (by simp)))

theorem colonJoin_cons_eq_join2 (s : String) (l : List String) (hs : s ≠ "")
    (hl : ∀ x ∈ l, x ≠ "") : colonJoin (s :: l) = join2 s (colonJoin l) := by
  match l with
  | [] => simp [colonJoin, join2_empty_right]
  | t :: rest =>
    show s ++ ":" ++ colonJoin (t :: rest) = _
    rw [join2_of_ne s _ hs (colonJoin_ne_empty (t :: rest) hl (by simp))]

theorem mem_filter_ne_empty (l : List String) :
    ∀ x ∈ l.filter (fun s => s != ""), x ≠ "" := by
  intro x hx
  have := List.of_mem_filter hx
  simpa using this

theorem append_eq_join2 (b : MessagePrefixBuilder) (s : String) :
    b.append s = ⟨join2 b.pfx s⟩ := by
  obtain ⟨p⟩ := b
  unfold MessagePrefixBuilder.append join2
  by_cases hs : s = "" <;> by_cases hp : p = "" <;> simp [hs, hp]

theorem foldl_append_eq (l : List String) (a : String) :
    (l.foldl MessagePrefixBuilder.append ⟨a⟩).pfx =
      join2 a (colonJoin (l.filter (fun s => s != ""))) := by
  induction l generalizing a with
  | nil => simp [colonJoin, join2_empty_right]
  | cons s rest ih =>
    rw [List.foldl_cons, append_eq_join2]
    by_cases hs : s = ""
    · have hja : join2 a s = a := by rw [hs, join2_empty_right]
      rw [hja, ih a]
      have : (s :: rest).filter (fun x => x != "") =
          rest.filter (fun x => x != "") := by simp [hs]
      rw [this]
    · have hfs : (s :: rest).filter (fun x => x != "") =
          s :: rest.filter (fun x => x != "") := by simp [hs]
      rw [hfs, ih (join2 a s),
        colonJoin_cons_eq_join2 s _ hs (mem_filter_ne_empty rest),
        join2_assoc a s _ hs]

/-- C8: every formatted line of the reference sinks has the shape
timestamp, space, upper-cased severity, space, prefix, space, message,
where the prefix joins with single colons exactly the truthy renderings of
appName, pid, contextName, contextId and moduleName, in that fixed order,
skipping falsy (absent, empty-string, or zero-number) parts without
emitting a separator for them. -/
theorem c8_format_layout (now level message : String) (meta : MessageMetadata) :
    buildFormatMessage now level message meta =
      now ++ " " ++ level.toUpper ++ " " ++
        colonJoin (([strPart meta.appName, natPart meta.pid,
          strPart meta.contextName, natPart meta.contextId,
          strPart meta.moduleName]).filter (fun s => s != "")) ++
        " " ++ message := by
  have hchain :
      ((((((MessagePrefixBuilder.mk "").append (strPart meta.appName)).append
        (natPart meta.pid)).append (strPart meta.contextName)).append
        (natPart meta.contextId)).append (strPart meta.moduleName)).pfx =
      ([strPart meta.appName, natPart meta.pid, strPart meta.contextName,
        natPart meta.contextId,
        strPart meta.moduleName].foldl MessagePrefixBuilder.append ⟨""⟩).pfx := rfl
  unfold buildFormatMessage MessagePrefixBuilder.done getLevelString
  rw [hchain, foldl_append_eq, join2_empty_left]

/-- C1: for a Module Logger already bound active through the registered
handle, registering a new backend service mutates only the current logger
field of the existing handle object — the registry slot keeps the same
handle and the handle heap keeps its shape — and every subsequent
debug/warn/error call on the logger invokes log on the new service (the
log target is the new service identity, and any emitted trace event is
tagged with it), with the Module Logger object itself left untouched (no
re-binding, no re-creation). -/
theorem c1_handle_rebinding (sys : Sys) (hid sidNew : Nat)
    (ml : ModuleLoggerState)
    (hreg : sys.regHandle = some hid) (hlen : hid < sys.handles.length)
    (hml : ml.handle = some (.reg hid)) (hact : ml.disabled = false) :
    (registerLogger sys sidNew).regHandle = sys.regHandle ∧
    (registerLogger sys sidNew).handles = sys.handles.set hid sidNew ∧
    ModuleLogger.attachToLoggerService (registerLogger sys sidNew) ml = ml ∧
    ModuleLogger.logTarget (registerLogger sys sidNew) ml = some sidNew ∧
    (∀ (pid : Nat) (level message : String),
      (ModuleLogger.log pid (registerLogger sys sidNew) ml level message).2 = ml ∧
      (ModuleLogger.log pid (registerLogger sys sidNew) ml level message).1.trace =
        (registerLogger sys sidNew).trace ++
          (match LoggerService.log pid
              ((registerLogger sys sidNew).svc sidNew) level message
              ⟨none, none, some ml.name, none, none⟩ with
            | none => []
            | some (lv, msg, meta2) => [⟨sidNew, lv, msg, meta2⟩])) := by
  have hA : registerLogger sys sidNew =
      { sys with handles := sys.handles.set hid sidNew, regLogger := some sidNew } := by
    simp [registerLogger, hreg]
  have hAtt : ModuleLogger.attachToLoggerService (registerLogger sys sidNew) ml = ml := by
    simp [ModuleLogger.attachToLoggerService, hml]
  have hHS : (registerLogger sys sidNew).handleService (.reg hid) = sidNew := by
    rw [hA]
    show (sys.handles.set hid sidNew).getD hid 0 = sidNew
    exact getD_set_self _ _ _ _ hlen
  refine ⟨by rw [hA], by rw [hA], hAtt, ?_, ?_⟩
  · unfold ModuleLogger.logTarget
    rw [hAtt]
    simp [hact, hml, hHS]
  · intro pid level message
    unfold ModuleLogger.log
    rw [hAtt]
    simp only [hact, hml, hHS, Bool.false_eq_true, if_false]
    cases hres : LoggerService.log pid ((registerLogger sys sidNew).svc sidNew)
        level message ⟨none, none, some ml.name, none, none⟩ with
    | none => simp [hres]
    | some trip =>
      obtain ⟨lv, msg, mt⟩ := trip
      simp [hres]

/-- Witness for C1: a system with one registered handle pointing at service
0 and a logger bound through it; registering service 1 reroutes the bound
logger to service 1. -/
theorem c1_handle_rebinding_witness :
    (registerLogger ⟨[LoggerService.create none, LoggerService.create (some "app")],
        [0], some 0, some 0, []⟩ 1).regHandle =
      (⟨[LoggerService.create none, LoggerService.create (some "app")],
        [0], some 0, some 0, []⟩ : Sys).regHandle ∧
    ModuleLogger.logTarget
      (registerLogger ⟨[LoggerService.create none, LoggerService.create (some "app")],
        [0], some 0, some 0, []⟩ 1)
      ⟨"m", some (.reg 0), false⟩ = some 1 ∧
    (ModuleLogger.log 9
      (registerLogger ⟨[LoggerService.create none, LoggerService.create (some "app")],
        [0], some 0, some 0, []⟩ 1)
      ⟨"m", some (.reg 0), false⟩ "debug" "hello").2 = ⟨"m", some (.reg 0), false⟩ := by
  have h := c1_handle_rebinding
    ⟨[LoggerService.create none, LoggerService.create (some "app")],
      [0], some 0, some 0, []⟩ 0 1 ⟨"m", some (.reg 0), false⟩
    rfl (by decide) rfl rfl
  exact ⟨h.1, h.2.2.2.1, (h.2.2.2.2 9 "debug" "hello").1⟩

/-- C2: a Module Logger whose first log call happens while neither the
handle token nor the legacy backend token is registered marks itself
disabled with no backend invoked and no state change (and no exception —
the embedded call is total and returns the unchanged system); and any
Module Logger whose disabled flag is set stays disabled on every later
call in every system state — including states where a backend has since
been registered — again invoking no backend and changing nothing. -/
theorem c2_permanently_disabled :
    (∀ (sys : Sys) (name : String) (pid : Nat) (level message : String),
      sys.regHandle = none → sys.regLogger = none →
      (ModuleLogger.log pid sys (createLogger name) level message).1 = sys ∧
      (ModuleLogger.log pid sys (createLogger name) level message).2 =
        { name := name, handle := none, disabled := true } ∧
      ModuleLogger.logTarget sys (createLogger name) = none) ∧
    (∀ (sys : Sys) (ml : ModuleLoggerState) (pid : Nat) (level message : String),
      ml.disabled = true →
      (ModuleLogger.log pid sys ml level message).1 = sys ∧
      (ModuleLogger.log pid sys ml level message).2.disabled = true ∧
      ModuleLogger.logTarget sys ml = none) := by
  constructor
  · intro sys name pid level message h1 h2
    have hAtt : ModuleLogger.attachToLoggerService sys (createLogger name) =
        { name := name, handle := none, disabled := true } := by
      simp [ModuleLogger.attachToLoggerService, createLogger, h1, h2]
    refine ⟨?_, ?_, ?_⟩
    · unfold ModuleLogger.log
      rw [hAtt]
      rfl
    · unfold ModuleLogger.log
      rw [hAtt]
      rfl
    · unfold ModuleLogger.logTarget
      rw [hAtt]
      rfl
  · intro sys ml pid level message hd
    have hAtt : (ModuleLogger.attachToLoggerService sys ml).disabled = true := by
      unfold ModuleLogger.attachToLoggerService
      by_cases hh : ml.handle.isSome
      · simp [hh, hd]
      · cases hrh : sys.regHandle with
        | some hid => simp [hh, hrh, hd]
        | none =>
          cases hrl : sys.regLogger with
          | none => simp [hh, hrh, hrl]
          | some sid => simp [hh, hrh, hrl, hd]
    refine ⟨?_, ?_, ?_⟩
    · unfold ModuleLogger.log
      simp [hAtt]
    · unfold ModuleLogger.log
      simp [hAtt]
    · unfold ModuleLogger.logTarget
      simp [hAtt]

/-- Witness for C2: a first call on a fresh logger in the empty system,
then a call on the disabled logger after a backend has been registered. -/
theorem c2_permanently_disabled_witness :
    (ModuleLogger.log 9 ⟨[], [], none, none, []⟩ (createLogger "x")
        "debug" "hello").1 = ⟨[], [], none, none, []⟩ ∧
    (ModuleLogger.log 9 ⟨[], [], none, none, []⟩ (createLogger "x")
        "debug" "hello").2 = ⟨"x", none, true⟩ ∧
    ModuleLogger.logTarget ⟨[], [], none, none, []⟩ (createLogger "x") = none ∧
    (ModuleLogger.log 9 ⟨[LoggerService.create none], [0], some 0, some 0, []⟩
        ⟨"x", none, true⟩ "debug" "hello").1 =
      ⟨[LoggerService.create none], [0], some 0, some 0, []⟩ ∧
    (ModuleLogger.log 9 ⟨[LoggerService.create none], [0], some 0, some 0, []⟩
        ⟨"x", none, true⟩ "debug" "hello").2.disabled = true ∧
    ModuleLogger.logTarget ⟨[LoggerService.create none], [0], some 0, some 0, []⟩
      ⟨"x", none, true⟩ = none := by
  have h := c2_permanently_disabled
  have h1 := h.1 ⟨[], [], none, none, []⟩ "x" 9 "debug" "hello" rfl rfl
  have h2 := h.2 ⟨[LoggerService.create none], [0], some 0, some 0, []⟩
    ⟨"x", none, true⟩ 9 "debug" "hello" rfl
  exact ⟨h1.1, h1.2.1, h1.2.2, h2.1, h2.2.1, h2.2.2⟩

/-- C5: constructing a guard while a backend is registered succeeds,
applies the shallow merge of the saved filter configuration with the
overrides — each provided field fully replaces the saved field, absent
fields keep the saved values — and dispose restores the service options to
exactly the configuration captured immediately before construction, in
whatever state the subsystem has reached meanwhile (so regardless of any
configure calls made by other code while the guard was active). -/
theorem c5_guard_merge_and_restore (sys : Sys) (sid : Nat) (ov : LoggerOptions)
    (hreg : sys.regLogger = some sid) (hlen : sid < sys.services.length) :
    newLoggerConfigGuard sys ov =
      .ok (sys.configure sid (mergeOptions (sys.svc sid).options ov),
        ⟨sid, (sys.svc sid).options⟩) ∧
    ((sys.configure sid (mergeOptions (sys.svc sid).options ov)).svc sid).options =
      mergeOptions (sys.svc sid).options ov ∧
    (∀ v, ov.enabled = some v →
      (mergeOptions (sys.svc sid).options ov).enabled = some v) ∧
    (ov.enabled = none →
      (mergeOptions (sys.svc sid).options ov).enabled =
        (sys.svc sid).options.enabled) ∧
    (∀ v, ov.disabled = some v →
      (mergeOptions (sys.svc sid).options ov).disabled = some v) ∧
    (ov.disabled = none →
      (mergeOptions (sys.svc sid).options ov).disabled =
        (sys.svc sid).options.disabled) ∧
    (∀ v, ov.verbose = some v →
      (mergeOptions (sys.svc sid).options ov).verbose = some v) ∧
    (ov.verbose = none →
      (mergeOptions (sys.svc sid).options ov).verbose =
        (sys.svc sid).options.verbose) ∧
    (∀ sysMid : Sys, sid < sysMid.services.length →
      ((LoggerConfigGuard.dispose ⟨sid, (sys.svc sid).options⟩ sysMid).svc
        sid).options = (sys.svc sid).options) := by
  refine ⟨?_, ?_, ?_, ?_, ?_, ?_, ?_, ?_, ?_⟩
  · simp [newLoggerConfigGuard, hreg]
  · rw [Sys.configure, svc_setSvc_self _ _ _ hlen]
    rfl
  · intro v h
    simp [mergeOptions, h]
  · intro h
    simp [mergeOptions, h]
  · intro v h
    simp [mergeOptions, h]
  · intro h
    simp [mergeOptions, h]
  · intro v h
    simp [mergeOptions, h]
  · intro h
    simp [mergeOptions, h]
  · intro sysMid hmid
    rw [LoggerConfigGuard.dispose, Sys.configure, svc_setSvc_self _ _ _ hmid]
    rfl

/-- Witness for C5: one registered backend with the initial options; the
merge provides only the enabled field; the dispose runs in a state whose
service was reconfigured in the meantime and still restores the saved
options. -/
theorem c5_guard_merge_and_restore_witness :
    ((LoggerConfigGuard.dispose
        ⟨0, (Sys.svc ⟨[LoggerService.create none], [], none, some 0, []⟩ 0).options⟩
        ⟨[⟨none, ⟨some ["z"], some ["q"], none⟩, []⟩], [], none, some 0, []⟩).svc
      0).options =
      (Sys.svc ⟨[LoggerService.create none], [], none, some 0, []⟩ 0).options ∧
    (mergeOptions (Sys.svc ⟨[LoggerService.create none], [], none, some 0, []⟩
        0).options ⟨some ["a"], none, none⟩).enabled = some ["a"] ∧
    (mergeOptions (Sys.svc ⟨[LoggerService.create none], [], none, some 0, []⟩
        0).options ⟨some ["a"], none, none⟩).disabled =
      (Sys.svc ⟨[LoggerService.create none], [], none, some 0, []⟩
        0).options.disabled := by
  have h := c5_guard_merge_and_restore
    ⟨[LoggerService.create none], [], none, some 0, []⟩ 0
    ⟨some ["a"], none, none⟩ rfl (by decide)
  exact ⟨h.2.2.2.2.2.2.2.2 ⟨[⟨none, ⟨some ["z"], some ["q"], none⟩, []⟩],
      [], none, some 0, []⟩ (by decide),
    h.2.2.1 ["a"] rfl, h.2.2.2.2.2.1 rfl⟩

/-- LoggerService.log never reads the auxiliary disabledModules set, so
replacing that set leaves every log outcome unchanged. -/
theorem log_ignores_disabledModules (pid : Nat) (s : LoggerService)
    (d : List String) (level message : String) (meta : MessageMetadata) :
    LoggerService.log pid { s with disabledModules := d } level message meta =
      LoggerService.log pid s level message meta := rfl

/-- C6: disable [m] on service sid only grows the auxiliary disable set
read by isDisabled — isDisabled m becomes true while the filter options
and appName stay untouched — and changes the outcome of no log call: every
LoggerService.log call on every service behaves as before, an
already-bound Module Logger keeps its log target and produces exactly the
same trace and state as before the disable, and a Module Logger that binds
afterwards through a handle currently designating sid becomes disabled at
bind time. -/
theorem c6_disable_only_affects_binding (sys : Sys) (sid : Nat) (m : String)
    (hlen : sid < sys.services.length) :
    ((sys.disable sid [m]).svc sid).isDisabled m = true ∧
    ((sys.disable sid [m]).svc sid).options = (sys.svc sid).options ∧
    ((sys.disable sid [m]).svc sid).appName = (sys.svc sid).appName ∧
    (∀ (pid : Nat) (level message : String) (meta : MessageMetadata)
      (sid' : Nat),
      LoggerService.log pid ((sys.disable sid [m]).svc sid') level message meta =
        LoggerService.log pid (sys.svc sid') level message meta) ∧
    (∀ ml : ModuleLoggerState, ml.handle.isSome = true →
      ModuleLogger.logTarget (sys.disable sid [m]) ml =
        ModuleLogger.logTarget sys ml) ∧
    (∀ (pid : Nat) (level message : String) (ml : ModuleLoggerState),
      ml.handle.isSome = true →
      (ModuleLogger.log pid (sys.disable sid [m]) ml level message).1.trace =
        (ModuleLogger.log pid sys ml level message).1.trace ∧
      (ModuleLogger.log pid (sys.disable sid [m]) ml level message).2 =
        (ModuleLogger.log pid sys ml level message).2) ∧
    (∀ hid, sys.regHandle = some hid → sys.handles.getD hid 0 = sid →
      (ModuleLogger.attachToLoggerService (sys.disable sid [m])
        (createLogger m)).disabled = true) := by
  have hsvcD : (sys.disable sid [m]).svc sid = (sys.svc sid).disable [m] := by
    rw [Sys.disable]
    exact svc_setSvc_self _ _ _ hlen
  have hdis1 : ((sys.disable sid [m]).svc sid).isDisabled m = true := by
    rw [hsvcD]
    show (([m].foldl setAdd (sys.svc sid).disabledModules)).contains m = true
    exact setAdd_contains_self _ m
  have hlog : ∀ (pid : Nat) (level message : String) (meta : MessageMetadata)
      (sid' : Nat),
      LoggerService.log pid ((sys.disable sid [m]).svc sid') level message meta =
        LoggerService.log pid (sys.svc sid') level message meta := by
    intro pid level message meta sid'
    by_cases h : sid = sid'
    · subst h
      rw [hsvcD]
      exact log_ignores_disabledModules pid (sys.svc sid) _ level message meta
    · rw [Sys.disable, svc_setSvc_ne _ _ _ _ h]
  refine ⟨hdis1, by rw [hsvcD]; rfl, by rw [hsvcD]; rfl, hlog, ?_, ?_, ?_⟩
  · intro ml hml
    obtain ⟨hr, hh⟩ := Option.isSome_iff_exists.mp hml
    have hAttD : ModuleLogger.attachToLoggerService (sys.disable sid [m]) ml = ml := by
      simp [ModuleLogger.attachToLoggerService, hh]
    have hAttS : ModuleLogger.attachToLoggerService sys ml = ml := by
      simp [ModuleLogger.attachToLoggerService, hh]
    unfold ModuleLogger.logTarget
    rw [hAttD, hAttS]
    simp only [hh]
    by_cases hd : ml.disabled = true
    · rw [if_pos hd, if_pos hd]
    · rw [if_neg hd, if_neg hd]
      cases hr <;> rfl
  · intro pid level message ml hml
    obtain ⟨hr, hh⟩ := Option.isSome_iff_exists.mp hml
    have hAttD : ModuleLogger.attachToLoggerService (sys.disable sid [m]) ml = ml := by
      simp [ModuleLogger.attachToLoggerService, hh]
    have hAttS : ModuleLogger.attachToLoggerService sys ml = ml := by
      simp [ModuleLogger.attachToLoggerService, hh]
    have hHS : (sys.disable sid [m]).handleService hr = sys.handleService hr := by
      cases hr <;> rfl
    unfold ModuleLogger.log
    rw [hAttD, hAttS]
    simp only [hh]
    by_cases hd : ml.disabled = true
    · rw [if_pos hd, if_pos hd]
      exact ⟨rfl, rfl⟩
    · rw [if_neg hd, if_neg hd]
      simp only [hHS, hlog]
      cases hres : LoggerService.log pid (sys.svc (sys.handleService hr))
          level message
          { appName := none, pid := none, moduleName := some ml.name
            contextName := none, contextId := none } with
      | none => exact ⟨rfl, rfl⟩
      | some trip =>
        obtain ⟨lv, msg, mt⟩ := trip
        exact ⟨rfl, rfl⟩
  · intro hid h1 h2
    have hrh : (sys.disable sid [m]).regHandle = some hid := h1
    have hhd : ((sys.disable sid [m]).handles)[hid]?.getD 0 = sid := by
      rw [← List.getD_eq_getElem?_getD]
      exact h2
    simp [ModuleLogger.attachToLoggerService, createLogger, hrh, hhd, hdis1]

/-- Witness for C6: one backend with an empty filter configuration and a
handle pointing at it; disabling the name db leaves the bound logger named
db emitting as before, while a fresh logger named db binding afterwards is
disabled. -/
theorem c6_disable_only_affects_binding_witness :
    ((Sys.disable ⟨[LoggerService.create none], [0], some 0, some 0, []⟩
        0 ["db"]).svc 0).isDisabled "db" = true ∧
    ((Sys.disable ⟨[LoggerService.create none], [0], some 0, some 0, []⟩
        0 ["db"]).svc 0).options =
      (Sys.svc ⟨[LoggerService.create none], [0], some 0, some 0, []⟩ 0).options ∧
    ModuleLogger.logTarget
        (Sys.disable ⟨[LoggerService.create none], [0], some 0, some 0, []⟩
          0 ["db"]) ⟨"db", some (.reg 0), false⟩ =
      ModuleLogger.logTarget ⟨[LoggerService.create none], [0], some 0, some 0, []⟩
        ⟨"db", some (.reg 0), false⟩ ∧
    (ModuleLogger.log 9
        (Sys.disable ⟨[LoggerService.create none], [0], some 0, some 0, []⟩
          0 ["db"]) ⟨"db", some (.reg 0), false⟩ "debug" "hello").1.trace =
      (ModuleLogger.log 9 ⟨[LoggerService.create none], [0], some 0, some 0, []⟩
        ⟨"db", some (.reg 0), false⟩ "debug" "hello").1.trace ∧
    (ModuleLogger.attachToLoggerService
        (Sys.disable ⟨[LoggerService.create none], [0], some 0, some 0, []⟩
          0 ["db"]) (createLogger "db")).disabled = true := by
  have h := c6_disable_only_affects_binding
    ⟨[LoggerService.create none], [0], some 0, some 0, []⟩ 0 "db" (by decide)
  exact ⟨h.1, h.2.1, h.2.2.2.2.1 ⟨"db", some (.reg 0), false⟩ rfl,
    (h.2.2.2.2.2.1 9 "debug" "hello" ⟨"db", some (.reg 0), false⟩ rfl).1,
    h.2.2.2.2.2.2 0 rfl rfl⟩

end Pokerdood
